import Mathlib

/-!
Verification of `scripts/pdf_regression.py`: a shallow embedding of the
image-diff metric, the text-invariant checker and the calibrate/test
workflows, together with proofs of the specification's claims about them.

Modelling conventions:
* Python `float` results are modelled as exact rationals (`ℚ`); the source
  performs only one multiplication and one division on floats.
* `raise SystemExit(msg)` is modelled as `Except.error msg`; when the
  exception reaches `main`, the interpreter exits with status 1.
* Raster images loaded from PNG files always have positive width and height
  (the PNG format does not admit zero dimensions), so the image model carries
  positivity proofs.
* Network fetches and subprocess invocations (renderer, `pdftoppm`,
  `pdftotext`) are external collaborators; a run's render is modelled as a
  pure `Render` value containing the extracted page texts and page rasters.
-/

/-- Python substring test helper: `needle` is a prefix of `hay`. -/
def prefixMatches : List Char → List Char → Bool
  | [], _ => true
  | _ :: _, [] => false
  | a :: as, b :: bs => (a == b) && prefixMatches as bs

/-- Python substring containment: `occursIn n h` models `n in h` for strings. -/
def occursIn (needle : List Char) : List Char → Bool
  | [] => prefixMatches needle []
  | b :: bs => prefixMatches needle (b :: bs) || occursIn needle bs

/-- `inStr needle hay` models the Python expression `needle in hay`. -/
def inStr (needle hay : String) : Bool :=
  occursIn needle.data hay.data

/-- The `text_invariants` block of the configuration: three marker strings. -/
structure InvSpec where
  page1_footer_contains : String
  page2_footer_contains : String
  must_start_on_page2 : String

/-- The `result` dict built by `assert_text_invariants`: four named booleans. -/
structure InvResult where
  page1_footer_present : Bool
  page2_footer_present : Bool
  page1_no_how_this_report_works : Bool
  page2_has_how_this_report_works : Bool

/-- The four checks of `assert_text_invariants`, all evaluated (lines 116-121). -/
def evalInvariants (checks : InvSpec) (p1 p2 : String) : InvResult :=
  { page1_footer_present := inStr checks.page1_footer_contains p1
    page2_footer_present := inStr checks.page2_footer_contains p2
    page1_no_how_this_report_works := !(inStr checks.must_start_on_page2 p1)
    page2_has_how_this_report_works := inStr checks.must_start_on_page2 p2 }

/-- `result.items()` in insertion order: the four key/value pairs. -/
def invFields (r : InvResult) : List (String × Bool) :=
  [("page1_footer_present", r.page1_footer_present),
   ("page2_footer_present", r.page2_footer_present),
   ("page1_no_how_this_report_works", r.page1_no_how_this_report_works),
   ("page2_has_how_this_report_works", r.page2_has_how_this_report_works)]

/-- `failed = [k for k, v in result.items() if not v]` (line 122). -/
def failedKeys (r : InvResult) : List String :=
  ((invFields r).filter (fun kv => !kv.2)).map (fun kv => kv.1)

/-- The message of the `SystemExit` raised on line 124. -/
def invariantFailureMsg (failed : List String) : String :=
  "Text invariant failure(s): " ++ String.intercalate ", " failed

/-- `assert_text_invariants` (lines 112-125): evaluates the four checks,
raises `SystemExit` listing every failed key when any is false, and returns
the result mapping otherwise.  The page texts `p1` and `p2` stand for the
output of `extract_page_text` on pages 1 and 2. -/
def assert_text_invariants (checks : InvSpec) (p1 p2 : String) :
    Except String InvResult :=
  let result := evalInvariants checks p1 p2
  let failed := failedKeys result
  if failed.isEmpty then .ok result else .error (invariantFailureMsg failed)

/-- A raster image as produced by `Image.open(...).convert("RGB")`: a
width × height grid of RGB triples.  PNG dimensions are always positive. -/
structure Img where
  width : Nat
  height : Nat
  pix : Nat → Nat → Nat × Nat × Nat
  wpos : 0 < width
  hpos : 0 < height

/-- `max(abs(p1[0] - p2[0]), abs(p1[1] - p2[1]), abs(p1[2] - p2[2]))`
(line 107), as a natural number. -/
def pixelDiff (p q : Nat × Nat × Nat) : Nat :=
  max ((p.1 : Int) - (q.1 : Int)).natAbs
    (max ((p.2.1 : Int) - (q.2.1 : Int)).natAbs
      ((p.2.2 : Int) - (q.2.2 : Int)).natAbs)

/-- The per-pixel test of line 107: `max(ΔR, ΔG, ΔB) > channel_threshold`. -/
def pixelChanged (p q : Nat × Nat × Nat) (t : Int) : Bool :=
  t < (pixelDiff p q : Int)

/-- The nested per-pixel loop of lines 102-108: `for y in range(height):
for x in range(width): if changed-test: changed += 1`. -/
def changedCount (a b : Img) (t : Int) : Nat :=
  (List.range a.height).foldl
    (fun acc y =>
      (List.range a.width).foldl
        (fun acc2 x => if pixelChanged (a.pix x y) (b.pix x y) t then acc2 + 1 else acc2)
        acc)
    0

/-- `diff_percent` (lines 93-109): 100.0 on a dimension mismatch, else
`100.0 * changed / total` where `total = width * height`. -/
def diff_percent (a b : Img) (t : Int) : ℚ :=
  if (a.width, a.height) ≠ (b.width, b.height) then 100
  else 100 * (changedCount a b t : ℚ) / ((a.width * a.height : Nat) : ℚ)

/-- The same computation as a single flattened linear scan over the pixel
buffer, index `i` decomposed as `x = i % width`, `y = i / width` (row-major,
matching the source's y-outer/x-inner order). -/
def changedCountFlat (a b : Img) (t : Int) : Nat :=
  (List.range (a.width * a.height)).foldl
    (fun acc i =>
      if pixelChanged (a.pix (i % a.width) (i / a.width))
          (b.pix (i % a.width) (i / a.width)) t then acc + 1 else acc)
    0

/-- Flattened-scan variant of `diff_percent`, for the refinement claim. -/
def diff_percent_flat (a b : Img) (t : Int) : ℚ :=
  if (a.width, a.height) ≠ (b.width, b.height) then 100
  else 100 * (changedCountFlat a b t : ℚ) / ((a.width * a.height : Nat) : ℚ)

/-- Spec-side changed-pixel count: the set of coordinates at which the
maximum of the per-channel absolute differences strictly exceeds `t`. -/
def specChangedCount (a b : Img) (t : Int) : Nat :=
  ((Finset.range a.width ×ˢ Finset.range a.height).filter
    (fun xy : Nat × Nat =>
      t < max |((a.pix xy.1 xy.2).1 : Int) - ((b.pix xy.1 xy.2).1 : Int)|
            (max |((a.pix xy.1 xy.2).2.1 : Int) - ((b.pix xy.1 xy.2).2.1 : Int)|
              |((a.pix xy.1 xy.2).2.2 : Int) - ((b.pix xy.1 xy.2).2.2 : Int)|))).card

/-- The configuration fields consumed by the two workflows (`calibration.json`
already loaded; `thresholds.max_diff_pct_per_page` converted by `float(...)`
and `thresholds.pixel_channel_threshold` by `int(...)`, default 15). -/
structure Config where
  baseline_dir : String
  pages : List Nat
  maxDiffPct : ℚ
  channelThreshold : Int
  checks : InvSpec

/-- One run's rendered document, abstracted over the external collaborators:
the texts `pdftotext` extracts from pages 1 and 2, and the raster
`pdftoppm` extracts for each page. -/
structure Render where
  page1Text : String
  page2Text : String
  raster : Nat → Img

/-- The on-disk state the workflows observe and mutate: whether the baseline
directory exists, which per-page baseline images it holds, and the
`calibration` metadata block written by `save_config`. -/
structure FS where
  baselineDirExists : Bool
  baselineImages : Nat → Option Img
  calibrationMeta : Option InvResult

/-- Persisting `page_{page}.png` into the baseline directory (line 138-139). -/
def writeBaseline (fs : FS) (page : Nat) (img : Img) : FS :=
  { fs with baselineImages := fun q => if q = page then some img else fs.baselineImages q }

/-- Exit status of the process when an `Except`-modelled workflow result
reaches `main`: `SystemExit(str)` exits with status 1. -/
def sysExitCode (e : Except String Unit) : Nat :=
  match e with
  | .ok _ => 0
  | .error _ => 1

/-- `run_calibrate` (lines 128-148): create the baseline directory, obtain the
render, check the text invariants (aborting on failure), then write one
baseline image per configured page and record calibration metadata. -/
def run_calibrate (cfg : Config) (r : Render) (fs : FS) :
    FS × Except String Unit :=
  let fs1 := { fs with baselineDirExists := true }
  match assert_text_invariants cfg.checks r.page1Text r.page2Text with
  | .error m => (fs1, .error m)
  | .ok flags =>
    let fs2 := cfg.pages.foldl (fun s p => writeBaseline s p (r.raster p)) fs1
    ({ fs2 with calibrationMeta := some flags }, .ok ())

/-- Message of the fatal missing-baseline-directory error (line 154). -/
def missingDirMsg (cfg : Config) : String :=
  "Baseline directory missing: " ++ cfg.baseline_dir ++ ". Run calibrate first."

/-- Per-page soft-failure entry for a missing baseline image (line 171). -/
def missingBaselineMsg (page : Nat) : String :=
  "missing baseline image: page_" ++ toString page ++ ".png"

/-- Per-page soft-failure entry for an exceeded diff threshold (line 177);
the numeric rendering abstracts the source's fixed-point formatting. -/
def pageExceedMsg (page : Nat) (pct maxAllowed : ℚ) : String :=
  "page " ++ toString page ++ " diff " ++ toString pct ++ "% exceeds "
    ++ toString maxAllowed ++ "%"

/-- Message of the aggregate test failure (line 181). -/
def regressionFailMsg (failures : List String) : String :=
  "PDF regression failed: " ++ String.intercalate "; " failures

/-- Round half to even at the fourth decimal place, modelling the Python
`round(pct, 4)` of line 175 on exact rational values. -/
def roundHalfEven (q : ℚ) : ℤ :=
  let f := ⌊q⌋
  if q - f < 1 / 2 then f
  else if q - f > 1 / 2 then f + 1
  else if Even f then f else f + 1

/-- `round(pct, 4)` of line 175 on exact rational values. -/
def round4 (q : ℚ) : ℚ :=
  (roundHalfEven (q * 10000) : ℚ) / 10000

/-- One iteration of the per-page loop of `run_test` (lines 167-177), acting
on the accumulated `(failures, summary)` pair. -/
def testStep (cfg : Config) (r : Render) (fs : FS)
    (acc : List String × List (Nat × ℚ)) (page : Nat) :
    List String × List (Nat × ℚ) :=
  match fs.baselineImages page with
  | none => (acc.1 ++ [missingBaselineMsg page], acc.2)
  | some base =>
    let pct := diff_percent base (r.raster page) cfg.channelThreshold
    ((if cfg.maxDiffPct < pct
      then acc.1 ++ [pageExceedMsg page pct cfg.maxDiffPct] else acc.1),
     acc.2 ++ [(page, round4 pct)])

/-- Outcome of a test run: the per-page diff summary that is printed before
the verdict, and the verdict itself. -/
structure TestOutcome where
  summary : List (Nat × ℚ)
  result : Except String Unit

/-- `run_test` (lines 151-183): fatal if the baseline directory is missing,
then obtain the render, check text invariants (aborting on failure), then
run the per-page loop collecting soft failures, print the summary, and fail
iff any failures were collected. -/
def run_test (cfg : Config) (r : Render) (fs : FS) : TestOutcome :=
  if fs.baselineDirExists = false then
    { summary := [], result := .error (missingDirMsg cfg) }
  else
    match assert_text_invariants cfg.checks r.page1Text r.page2Text with
    | .error m => { summary := [], result := .error m }
    | .ok _ =>
      let acc := cfg.pages.foldl (testStep cfg r fs) ([], [])
      { summary := acc.2
        result :=
          if acc.1.isEmpty then .ok () else .error (regressionFailMsg acc.1) }

/-- The per-page soft-failure entry a configured page contributes, if any:
a missing-baseline entry when the page has no baseline image, a
threshold-exceeded entry when its diff strictly exceeds the maximum. -/
def failEntry (cfg : Config) (r : Render) (fs : FS) (page : Nat) :
    Option String :=
  match fs.baselineImages page with
  | none => some (missingBaselineMsg page)
  | some base =>
    let pct := diff_percent base (r.raster page) cfg.channelThreshold
    if cfg.maxDiffPct < pct then some (pageExceedMsg page pct cfg.maxDiffPct)
    else none

/-- The summary entry a configured page contributes: its rounded diff
percentage, present exactly when the page has a baseline image. -/
def sumEntry (cfg : Config) (r : Render) (fs : FS) (page : Nat) :
    Option (Nat × ℚ) :=
  (fs.baselineImages page).map
    (fun base => (page, round4 (diff_percent base (r.raster page) cfg.channelThreshold)))

/-! ### Counting lemmas for the per-pixel scan -/

/-- A conditional-increment fold counts the elements satisfying the test. -/
lemma foldl_count_eq {α : Type} (p : α → Bool) :
    ∀ (l : List α) (init : Nat),
      l.foldl (fun acc x => if p x then acc + 1 else acc) init = init + l.countP p := by
  intro l
  induction l with
  | nil => intro init; simp
  | cons a l ih =>
    intro init
    rw [List.foldl_cons, ih, List.countP_cons]
    by_cases h : p a
    · simp only [if_pos h]
      omega
    · simp only [if_neg h]
      omega

/-- The nested conditional-increment fold is the sum of the row counts. -/
lemma nested_foldl_eq (p : Nat → Nat → Bool) (w : Nat) :
    ∀ (l : List Nat) (init : Nat),
      l.foldl (fun acc y => (List.range w).foldl
        (fun a x => if p x y then a + 1 else a) acc) init
      = init + (l.map (fun y => (List.range w).countP (fun x => p x y))).sum := by
  intro l
  induction l with
  | nil => intro init; simp
  | cons y l ih =>
    intro init
    rw [List.foldl_cons, foldl_count_eq, ih, List.map_cons, List.sum_cons]
    omega

/-- The nested loop of `diff_percent` as a sum of per-row counts. -/
lemma changedCount_eq_rows (a b : Img) (t : Int) :
    changedCount a b t
      = ((List.range a.height).map
          (fun y => (List.range a.width).countP
            (fun x => pixelChanged (a.pix x y) (b.pix x y) t))).sum := by
  unfold changedCount
  rw [nested_foldl_eq (fun x y => pixelChanged (a.pix x y) (b.pix x y) t)
    a.width (List.range a.height) 0, Nat.zero_add]

/-- Counting over `range (w * h)` with row-major index decomposition equals
the sum of the per-row counts. -/
lemma countP_range_mul (p : Nat → Nat → Bool) (w : Nat) :
    ∀ h : Nat, (List.range (w * h)).countP (fun i => p (i % w) (i / w))
      = ((List.range h).map (fun y => (List.range w).countP (fun x => p x y))).sum := by
  intro h
  induction h with
  | zero => simp
  | succ n ih =>
    rcases Nat.eq_zero_or_pos w with hw | hw
    · subst hw; simp
    · rw [Nat.mul_succ, List.range_add, List.countP_append, List.countP_map, ih,
        List.range_succ, List.map_append, List.sum_append]
      simp only [List.map_cons, List.map_nil, List.sum_cons, List.sum_nil]
      congr 1
      refine List.countP_congr ?_
      intro x hx
      have hxw : x < w := List.mem_range.mp hx
      have hmod : (w * n + x) % w = x := by
        rw [Nat.add_comm, Nat.add_mul_mod_self_left, Nat.mod_eq_of_lt hxw]
      have hdiv : (w * n + x) / w = n := by
        rw [Nat.add_comm, Nat.add_mul_div_left x n hw, Nat.div_eq_of_lt hxw,
          Nat.zero_add]
      simp only [Function.comp, hmod, hdiv]

/-- A count over `List.range` as a `Finset.range` sum of indicators. -/
lemma countP_range_eq_sum (p : Nat → Bool) :
    ∀ n : Nat, (List.range n).countP p = ∑ x ∈ Finset.range n, if p x then 1 else 0 := by
  intro n
  induction n with
  | zero => simp
  | succ n ih =>
    rw [List.range_succ, List.countP_append, ih, Finset.sum_range_succ]
    simp [List.countP_cons]

/-- A mapped `List.range` sum as a `Finset.range` sum. -/
lemma map_range_sum (f : Nat → Nat) :
    ∀ n : Nat, ((List.range n).map f).sum = ∑ x ∈ Finset.range n, f x := by
  intro n
  induction n with
  | zero => simp
  | succ n ih =>
    rw [List.range_succ, List.map_append, List.sum_append, ih, Finset.sum_range_succ]
    simp

/-- Casting `pixelDiff` to `Int` yields the maximum of the per-channel
absolute differences. -/
lemma pixelDiff_cast (p q : Nat × Nat × Nat) :
    ((pixelDiff p q : Nat) : Int)
      = max |(p.1 : Int) - (q.1 : Int)|
          (max |(p.2.1 : Int) - (q.2.1 : Int)| |(p.2.2 : Int) - (q.2.2 : Int)|) := by
  simp [pixelDiff, Nat.cast_max, Int.natCast_natAbs]

/-- The boolean pixel test holds exactly when the maximum per-channel
absolute difference strictly exceeds the threshold. -/
lemma pixelChanged_iff (p q : Nat × Nat × Nat) (t : Int) :
    pixelChanged p q t = true
      ↔ t < max |(p.1 : Int) - (q.1 : Int)|
          (max |(p.2.1 : Int) - (q.2.1 : Int)| |(p.2.2 : Int) - (q.2.2 : Int)|) := by
  rw [pixelChanged, ← pixelDiff_cast]
  simp

/-- The nested loop count equals the spec-side coordinate count. -/
lemma changedCount_eq_spec (a b : Img) (t : Int) :
    changedCount a b t = specChangedCount a b t := by
  rw [changedCount_eq_rows, specChangedCount, Finset.card_filter, Finset.sum_product]
  rw [Finset.sum_comm]
  rw [map_range_sum (fun y => (List.range a.width).countP
    (fun x => pixelChanged (a.pix x y) (b.pix x y) t)) a.height]
  refine Finset.sum_congr rfl ?_
  intro y _
  rw [countP_range_eq_sum]
  refine Finset.sum_congr rfl ?_
  intro x _
  by_cases h : pixelChanged (a.pix x y) (b.pix x y) t
  · rw [if_pos h, if_pos ((pixelChanged_iff _ _ _).mp h)]
  · rw [if_neg h, if_neg (fun hc => h ((pixelChanged_iff _ _ _).mpr hc))]

/-- The spec-side count never exceeds the number of pixel coordinates. -/
lemma specChangedCount_le (a b : Img) (t : Int) :
    specChangedCount a b t ≤ a.width * a.height := by
  calc specChangedCount a b t
      ≤ (Finset.range a.width ×ˢ Finset.range a.height).card :=
        Finset.card_filter_le _ _
    _ = a.width * a.height := by rw [Finset.card_product, Finset.card_range, Finset.card_range]

/-- The flat scan count equals the nested loop count. -/
lemma changedCountFlat_eq (a b : Img) (t : Int) :
    changedCountFlat a b t = changedCount a b t := by
  rw [changedCount_eq_rows]
  unfold changedCountFlat
  rw [foldl_count_eq (fun i => pixelChanged (a.pix (i % a.width) (i / a.width))
      (b.pix (i % a.width) (i / a.width)) t) (List.range (a.width * a.height)) 0,
    Nat.zero_add]
  exact countP_range_mul
    (fun x y => pixelChanged (a.pix x y) (b.pix x y) t) a.width a.height

/-! ### Concrete images used to instantiate hypotheses -/

/-- A 1 × 1 black image. -/
def imgBlack : Img :=
  ⟨1, 1, fun _ _ => (0, 0, 0), Nat.one_pos, Nat.one_pos⟩

/-- A 1 × 1 image whose red channel is 20. -/
def imgRed20 : Img :=
  ⟨1, 1, fun _ _ => (20, 0, 0), Nat.one_pos, Nat.one_pos⟩

/-- A 2 × 1 white image. -/
def imgWide : Img :=
  ⟨2, 1, fun _ _ => (255, 255, 255), Nat.zero_lt_two, Nat.one_pos⟩

/-! ### Claims about the image differ -/

/-- C1: on images of identical dimensions, `diff_percent` counts exactly the
coordinates where the maximum per-channel absolute difference strictly
exceeds the threshold, returns `100 * changed / total` with no rounding, and
the result lies in the interval [0, 100]. -/
theorem C1_diff_percent_pixelwise (a b : Img) (t : Int)
    (hsize : (a.width, a.height) = (b.width, b.height)) :
    diff_percent a b t
      = 100 * (specChangedCount a b t : ℚ) / ((a.width * a.height : Nat) : ℚ)
    ∧ 0 ≤ diff_percent a b t ∧ diff_percent a b t ≤ 100 := by
  have hT : (0 : ℚ) < ((a.width * a.height : Nat) : ℚ) := by
    exact_mod_cast Nat.mul_pos a.wpos a.hpos
  have heq : diff_percent a b t
      = 100 * (specChangedCount a b t : ℚ) / ((a.width * a.height : Nat) : ℚ) := by
    rw [diff_percent, if_neg (not_not_intro hsize), changedCount_eq_spec]
  refine ⟨heq, ?_, ?_⟩
  · rw [heq]
    positivity
  · rw [heq, div_le_iff₀ hT]
    have hle : (specChangedCount a b t : ℚ) ≤ ((a.width * a.height : Nat) : ℚ) := by
      exact_mod_cast specChangedCount_le a b t
    nlinarith

/-- Witness for C1 at a concrete pair of same-sized images. -/
theorem C1_diff_percent_pixelwise_witness :
    diff_percent imgBlack imgRed20 15
        = 100 * (specChangedCount imgBlack imgRed20 15 : ℚ)
          / ((imgBlack.width * imgBlack.height : Nat) : ℚ)
      ∧ 0 ≤ diff_percent imgBlack imgRed20 15
      ∧ diff_percent imgBlack imgRed20 15 ≤ 100 :=
  C1_diff_percent_pixelwise imgBlack imgRed20 15 rfl

/-- C3: on a dimension mismatch, `diff_percent` returns exactly 100
independently of every pixel value of either image. -/
theorem C3_dim_mismatch_is_100 (a b : Img) (t : Int)
    (h : (a.width, a.height) ≠ (b.width, b.height)) :
    diff_percent a b t = 100
    ∧ ∀ p q : Nat → Nat → Nat × Nat × Nat,
        diff_percent { a with pix := p } { b with pix := q } t = 100 := by
  refine ⟨?_, ?_⟩
  · rw [diff_percent, if_pos h]
  · intro p q
    rw [diff_percent, if_pos h]

/-- Witness for C3 at concrete images of different widths. -/
theorem C3_dim_mismatch_is_100_witness :
    diff_percent imgBlack imgWide 15 = 100
    ∧ ∀ p q : Nat → Nat → Nat × Nat × Nat,
        diff_percent { imgBlack with pix := p } { imgWide with pix := q } 15 = 100 :=
  C3_dim_mismatch_is_100 imgBlack imgWide 15 (by decide)

/-- C7: for a fixed pair of images, `diff_percent` is monotonically
non-increasing in the channel threshold. -/
theorem C7_threshold_antitone (a b : Img) (t1 t2 : Int) (h : t1 ≤ t2) :
    diff_percent a b t2 ≤ diff_percent a b t1 := by
  by_cases hs : (a.width, a.height) ≠ (b.width, b.height)
  · rw [diff_percent, diff_percent, if_pos hs, if_pos hs]
  · rw [diff_percent, diff_percent, if_neg hs, if_neg hs]
    have hcount : changedCount a b t2 ≤ changedCount a b t1 := by
      rw [changedCount_eq_rows, changedCount_eq_rows]
      refine List.sum_le_sum ?_
      intro y _
      refine List.countP_mono_left ?_
      intro x _ hx
      have hx2 : t2 < (pixelDiff (a.pix x y) (b.pix x y) : Int) := by
        simpa [pixelChanged] using hx
      simpa [pixelChanged] using lt_of_le_of_lt h hx2
    have hT : (0 : ℚ) ≤ ((a.width * a.height : Nat) : ℚ) := by positivity
    have hcq : (changedCount a b t2 : ℚ) ≤ (changedCount a b t1 : ℚ) := by
      exact_mod_cast hcount
    gcongr

/-- Witness for C7 at concrete images and thresholds 10 ≤ 15. -/
theorem C7_threshold_antitone_witness :
    diff_percent imgBlack imgRed20 15 ≤ diff_percent imgBlack imgRed20 10 :=
  C7_threshold_antitone imgBlack imgRed20 10 15 (by decide)

/-- C8: comparing any image against itself with a nonnegative threshold
reports zero drift. -/
theorem C8_self_diff_zero (img : Img) (t : Int) (h : 0 ≤ t) :
    diff_percent img img t = 0 := by
  have hcount : changedCount img img t = 0 := by
    rw [changedCount_eq_rows]
    have hrow : ∀ y ∈ List.range img.height,
        (List.range img.width).countP
          (fun x => pixelChanged (img.pix x y) (img.pix x y) t) = 0 := by
      intro y _
      refine List.countP_eq_zero.mpr ?_
      intro x _
      simp only [pixelChanged, pixelDiff, sub_self, Int.natAbs_zero, Nat.max_self,
        Nat.cast_zero, decide_eq_true_eq]
      omega
    rw [List.map_congr_left hrow]
    simp
  rw [diff_percent, if_neg (not_not_intro rfl), hcount]
  simp

/-- Witness for C8 at a concrete image and threshold 15. -/
theorem C8_self_diff_zero_witness : diff_percent imgRed20 imgRed20 15 = 0 :=
  C8_self_diff_zero imgRed20 15 (by decide)

/-- C9: the flattened single linear scan over the pixel buffer computes the
same value as the nested two-dimensional scan, for all images and
thresholds. -/
theorem C9_flat_scan_equivalent (a b : Img) (t : Int) :
    diff_percent_flat a b t = diff_percent a b t := by
  rw [diff_percent_flat, diff_percent, changedCountFlat_eq]

/-! ### Claims about the text-invariant checker -/

/-- A key appears among the failed keys exactly when the identically named
check evaluated to `false`. -/
lemma mem_failedKeys (r : InvResult) (k : String) :
    k ∈ failedKeys r ↔ (k, false) ∈ invFields r := by
  rcases r with ⟨b1, b2, b3, b4⟩
  cases b1 <;> cases b2 <;> cases b3 <;> cases b4 <;>
    simp [failedKeys, invFields]

/-- C2 counterexample: on a render with false invariants, the checker does
not return the mapping at all — it raises `SystemExit`.  Here the two page
texts are empty, so both footer checks and the page-2 marker check fail. -/
theorem C2_counterexample :
    assert_text_invariants ⟨"F1", "F2", "HOW"⟩ "" ""
      = .error ("Text invariant failure(s): page1_footer_present, " ++
          "page2_footer_present, page2_has_how_this_report_works") := by
  rfl

/-- C2 (amended): the checker evaluates all four named booleans
unconditionally, but it aborts by itself whenever any of them is false: the
full mapping is returned only when all four hold, and otherwise the raised
error lists every failed key (a key is listed exactly when its check is
false), so fatality is decided inside the checker, not by the caller. -/
theorem C2_checker_aborts_listing_all_failures (checks : InvSpec) (p1 p2 : String) :
    (assert_text_invariants checks p1 p2 = .ok (evalInvariants checks p1 p2)
      ↔ failedKeys (evalInvariants checks p1 p2) = [])
    ∧ (failedKeys (evalInvariants checks p1 p2) ≠ [] →
        assert_text_invariants checks p1 p2
          = .error (invariantFailureMsg (failedKeys (evalInvariants checks p1 p2))))
    ∧ (∀ k, k ∈ failedKeys (evalInvariants checks p1 p2)
        ↔ (k, false) ∈ invFields (evalInvariants checks p1 p2)) := by
  refine ⟨?_, ?_, fun k => mem_failedKeys _ k⟩
  · rw [assert_text_invariants]
    by_cases h : (failedKeys (evalInvariants checks p1 p2)).isEmpty
    · simp only [if_pos h]
      simp [List.isEmpty_iff.mp h]
    · simp only [if_neg h]
      constructor
      · intro hc
        exact absurd hc (by simp)
      · intro hc
        exact absurd (List.isEmpty_iff.mpr hc) h
  · intro hne
    rw [assert_text_invariants]
    have h : (failedKeys (evalInvariants checks p1 p2)).isEmpty = false := by
      simp [List.isEmpty_iff, hne]
    simp [h]

/-- Witness for C2's amended theorem: the abort branch at a concrete render
with empty page texts. -/
theorem C2_checker_aborts_listing_all_failures_witness :
    assert_text_invariants ⟨"F1", "F2", "HOW"⟩ "" ""
      = .error (invariantFailureMsg
          (failedKeys (evalInvariants ⟨"F1", "F2", "HOW"⟩ "" ""))) :=
  (C2_checker_aborts_listing_all_failures ⟨"F1", "F2", "HOW"⟩ "" "").2.1 (by decide)

/-! ### Characterizing the test-mode per-page loop -/

/-- A fold appending one optional element to each of two accumulated lists
per step collects the `filterMap`s of the two entry functions. -/
lemma foldl_append_pair {α β γ : Type} (f : α → Option β) (g : α → Option γ) :
    ∀ (l : List α) (acc : List β × List γ),
      l.foldl (fun acc x => (acc.1 ++ (f x).toList, acc.2 ++ (g x).toList)) acc
        = (acc.1 ++ l.filterMap f, acc.2 ++ l.filterMap g) := by
  intro l
  induction l with
  | nil => intro acc; simp
  | cons x l ih =>
    intro acc
    rw [List.foldl_cons, ih]
    cases hf : f x <;> cases hg : g x <;>
      simp [List.filterMap_cons, hf, hg]

/-- Each iteration of the per-page loop appends the page's optional failure
entry and optional summary entry. -/
lemma testStep_eq (cfg : Config) (r : Render) (fs : FS)
    (acc : List String × List (Nat × ℚ)) (page : Nat) :
    testStep cfg r fs acc page
      = (acc.1 ++ (failEntry cfg r fs page).toList,
         acc.2 ++ (sumEntry cfg r fs page).toList) := by
  cases h : fs.baselineImages page
  · simp [testStep, failEntry, sumEntry, h]
  · simp only [testStep, failEntry, sumEntry, h, Option.map_some]
    split <;> simp

/-- The whole per-page loop yields the `filterMap`s of the entry functions:
every configured page is visited exactly once, in order. -/
lemma run_test_loop_eq (cfg : Config) (r : Render) (fs : FS) :
    cfg.pages.foldl (testStep cfg r fs) ([], [])
      = (cfg.pages.filterMap (failEntry cfg r fs),
         cfg.pages.filterMap (sumEntry cfg r fs)) := by
  have hfun : testStep cfg r fs
      = fun acc x => (acc.1 ++ (failEntry cfg r fs x).toList,
          acc.2 ++ (sumEntry cfg r fs x).toList) :=
    funext fun acc => funext fun x => testStep_eq cfg r fs acc x
  rw [hfun, foldl_append_pair (failEntry cfg r fs) (sumEntry cfg r fs)]
  simp

/-- Under an existing baseline directory and passing text invariants,
`run_test` prints the summary entries of all configured pages and fails
exactly when some page contributed a failure entry. -/
lemma run_test_eq (cfg : Config) (r : Render) (fs : FS)
    (hdir : fs.baselineDirExists = true)
    (hinv : failedKeys (evalInvariants cfg.checks r.page1Text r.page2Text) = []) :
    run_test cfg r fs
      = { summary := cfg.pages.filterMap (sumEntry cfg r fs)
          result :=
            if (cfg.pages.filterMap (failEntry cfg r fs)).isEmpty then .ok ()
            else .error (regressionFailMsg (cfg.pages.filterMap (failEntry cfg r fs))) } := by
  have hassert : assert_text_invariants cfg.checks r.page1Text r.page2Text
      = .ok (evalInvariants cfg.checks r.page1Text r.page2Text) := by
    rw [assert_text_invariants]
    simp [hinv]
  rw [run_test, hdir, hassert]
  simp only [Bool.true_eq_false, if_false]
  rw [run_test_loop_eq]

/-- The fatal missing-directory error can never coincide with an aggregate
per-page failure report: the two messages differ in their first character. -/
lemma missingDir_ne_regression (cfg : Config) (l : List String) :
    missingDirMsg cfg ≠ regressionFailMsg l := by
  intro h
  have h2 := congrArg (fun s => s.data.head?) h
  simp only [missingDirMsg, regressionFailMsg] at h2
  have hB : (("Baseline directory missing: " ++ cfg.baseline_dir
      ++ ". Run calibrate first.").data).head? = some 'B' := rfl
  have hP : (("PDF regression failed: "
      ++ String.intercalate "; " l).data).head? = some 'P' := rfl
  rw [hB, hP] at h2
  exact absurd h2 (by decide)

/-! ### Concrete workflow inputs used to instantiate hypotheses -/

/-- A concrete invariant specification: two footers and a structural marker. -/
def spec0 : InvSpec := ⟨"F1", "F2", "HOW"⟩

/-- A concrete configuration checking pages 1 and 2 with a 2% budget. -/
def cfg0 : Config := ⟨"tests/pdf_regression/baseline", [1, 2], 2, 15, spec0⟩

/-- A structurally broken render: both page texts are empty, so both footer
checks and the page-2 marker check are false. -/
def renderBad : Render := ⟨"", "", fun _ => imgBlack⟩

/-- A structurally sound render: all four text invariants hold. -/
def renderGood : Render := ⟨"F1", "F2 HOW", fun _ => imgBlack⟩

/-- An initial on-disk state: no baseline directory, no baseline images. -/
def fs0 : FS := ⟨false, fun _ => none, none⟩

/-- A calibrated-looking state: the directory exists and holds a baseline
image for page 1 only. -/
def fsCal : FS := ⟨true, fun p => if p = 1 then some imgBlack else none, none⟩

/-! ### Claims about the two workflows -/

/-- C4: in the calibrate workflow a false text invariant aborts the whole
run with `SystemExit` (hence a nonzero exit status) and writes no image
into the baseline store. -/
theorem C4_calibrate_aborts_without_baseline (cfg : Config) (r : Render) (fs : FS)
    (hinv : failedKeys (evalInvariants cfg.checks r.page1Text r.page2Text) ≠ []) :
    (run_calibrate cfg r fs).2
        = .error (invariantFailureMsg
            (failedKeys (evalInvariants cfg.checks r.page1Text r.page2Text)))
    ∧ sysExitCode (run_calibrate cfg r fs).2 = 1
    ∧ (run_calibrate cfg r fs).1.baselineImages = fs.baselineImages := by
  have hassert : assert_text_invariants cfg.checks r.page1Text r.page2Text
      = .error (invariantFailureMsg
          (failedKeys (evalInvariants cfg.checks r.page1Text r.page2Text))) := by
    rw [assert_text_invariants]
    have h : (failedKeys (evalInvariants cfg.checks r.page1Text r.page2Text)).isEmpty
        = false := by
      simp [List.isEmpty_iff, hinv]
    simp [h]
  rw [run_calibrate, hassert]
  exact ⟨rfl, rfl, rfl⟩

/-- Witness for C4: a broken render aborts calibration on an initially
empty store. -/
theorem C4_calibrate_aborts_without_baseline_witness :
    (run_calibrate cfg0 renderBad fs0).2
        = .error (invariantFailureMsg
            (failedKeys (evalInvariants cfg0.checks renderBad.page1Text renderBad.page2Text)))
    ∧ sysExitCode (run_calibrate cfg0 renderBad fs0).2 = 1
    ∧ (run_calibrate cfg0 renderBad fs0).1.baselineImages = fs0.baselineImages :=
  C4_calibrate_aborts_without_baseline cfg0 renderBad fs0 (by decide)

/-- C5: in the test workflow a missing baseline directory is an immediate
fatal error whose message can never coincide with an aggregate per-page
failure report, whereas with the directory present (and invariants passing)
a missing per-page baseline image is only recorded as that page's failure
entry: every configured page contributes its entry via a total scan of the
page list, so the final report is complete. -/
theorem C5_dir_fatal_page_soft (cfg : Config) (r : Render) (fs : FS) :
    (fs.baselineDirExists = false →
        run_test cfg r fs = { summary := [], result := .error (missingDirMsg cfg) }
        ∧ ∀ l : List String, missingDirMsg cfg ≠ regressionFailMsg l)
    ∧ (fs.baselineDirExists = true →
        failedKeys (evalInvariants cfg.checks r.page1Text r.page2Text) = [] →
        (run_test cfg r fs).summary = cfg.pages.filterMap (sumEntry cfg r fs)
        ∧ (run_test cfg r fs).result
            = (if (cfg.pages.filterMap (failEntry cfg r fs)).isEmpty then .ok ()
               else .error (regressionFailMsg (cfg.pages.filterMap (failEntry cfg r fs))))
        ∧ ∀ p ∈ cfg.pages, fs.baselineImages p = none →
            failEntry cfg r fs p = some (missingBaselineMsg p)) := by
  constructor
  · intro hdir
    constructor
    · rw [run_test, hdir]
      simp
    · exact fun l => missingDir_ne_regression cfg l
  · intro hdir hinv
    rw [run_test_eq cfg r fs hdir hinv]
    refine ⟨rfl, rfl, ?_⟩
    intro p _ hp
    rw [failEntry, hp]

/-- Witness for C5: the fatal branch at a concrete state with no baseline
directory. -/
theorem C5_dir_fatal_page_soft_witness :
    run_test cfg0 renderGood fs0
        = { summary := [], result := .error (missingDirMsg cfg0) }
    ∧ ∀ l : List String, missingDirMsg cfg0 ≠ regressionFailMsg l :=
  (C5_dir_fatal_page_soft cfg0 renderGood fs0).1 rfl

/-- C6: with the baseline directory present and text invariants passing, a
page with an existing baseline image contributes a failure entry exactly
when its diff percentage strictly exceeds the configured maximum — a page
exactly at the threshold contributes none — and the run passes exactly when
no page contributed a failure entry. -/
theorem C6_strict_threshold_pass (cfg : Config) (r : Render) (fs : FS)
    (hdir : fs.baselineDirExists = true)
    (hinv : failedKeys (evalInvariants cfg.checks r.page1Text r.page2Text) = []) :
    (∀ p base, fs.baselineImages p = some base →
        ((failEntry cfg r fs p).isSome
            ↔ cfg.maxDiffPct < diff_percent base (r.raster p) cfg.channelThreshold)
        ∧ (diff_percent base (r.raster p) cfg.channelThreshold = cfg.maxDiffPct →
            failEntry cfg r fs p = none))
    ∧ ((run_test cfg r fs).result = .ok ()
        ↔ cfg.pages.filterMap (failEntry cfg r fs) = []) := by
  constructor
  · intro p base hp
    constructor
    · rw [failEntry, hp]
      by_cases hc : cfg.maxDiffPct < diff_percent base (r.raster p) cfg.channelThreshold
      · simp [hc]
      · simp [hc]
    · intro heq
      rw [failEntry, hp]
      simp [heq]
  · rw [run_test_eq cfg r fs hdir hinv]
    by_cases h : (cfg.pages.filterMap (failEntry cfg r fs)).isEmpty
    · simp only [if_pos h]
      simp [List.isEmpty_iff.mp h]
    · simp only [if_neg h]
      constructor
      · intro hc
        exact absurd hc (by simp)
      · intro hc
        exact absurd (List.isEmpty_iff.mpr hc) h

/-- Witness for C6 at a concrete calibrated state: page 1 has a baseline
and pages at most 2% diff pass. -/
theorem C6_strict_threshold_pass_witness :
    (∀ p base, fsCal.baselineImages p = some base →
        ((failEntry cfg0 renderGood fsCal p).isSome
            ↔ cfg0.maxDiffPct < diff_percent base (renderGood.raster p) cfg0.channelThreshold)
        ∧ (diff_percent base (renderGood.raster p) cfg0.channelThreshold = cfg0.maxDiffPct →
            failEntry cfg0 renderGood fsCal p = none))
    ∧ ((run_test cfg0 renderGood fsCal).result = .ok ()
        ↔ cfg0.pages.filterMap (failEntry cfg0 renderGood fsCal) = []) :=
  C6_strict_threshold_pass cfg0 renderGood fsCal rfl (by decide)

/-- C10: calibrate creates the baseline directory before the invariants are
evaluated, so an aborted calibrate leaves an existing (possibly empty)
directory behind; a subsequent test run against a sound render then passes
the directory gate and reports one missing-baseline soft failure per
configured page, instead of the fatal missing-directory error. -/
theorem C10_aborted_calibrate_leaves_directory (cfg : Config) (r rGood : Render) (fs : FS)
    (hinv : failedKeys (evalInvariants cfg.checks r.page1Text r.page2Text) ≠ [])
    (hgood : failedKeys (evalInvariants cfg.checks rGood.page1Text rGood.page2Text) = [])
    (hempty : ∀ p, fs.baselineImages p = none)
    (hpages : cfg.pages ≠ []) :
    ((run_calibrate cfg r fs).1.baselineDirExists = true
      ∧ (run_calibrate cfg r fs).1.baselineImages = fs.baselineImages
      ∧ sysExitCode (run_calibrate cfg r fs).2 = 1)
    ∧ (run_test cfg rGood (run_calibrate cfg r fs).1).result
        = .error (regressionFailMsg (cfg.pages.map missingBaselineMsg))
    ∧ (run_test cfg rGood (run_calibrate cfg r fs).1).result
        ≠ .error (missingDirMsg cfg) := by
  have hassert : assert_text_invariants cfg.checks r.page1Text r.page2Text
      = .error (invariantFailureMsg
          (failedKeys (evalInvariants cfg.checks r.page1Text r.page2Text))) := by
    rw [assert_text_invariants]
    have h : (failedKeys (evalInvariants cfg.checks r.page1Text r.page2Text)).isEmpty
        = false := by
      simp [List.isEmpty_iff, hinv]
    simp [h]
  have hcal : run_calibrate cfg r fs
      = ({ fs with baselineDirExists := true },
         .error (invariantFailureMsg
           (failedKeys (evalInvariants cfg.checks r.page1Text r.page2Text)))) := by
    rw [run_calibrate, hassert]
  have hfail : ∀ l : List Nat,
      l.filterMap (failEntry cfg rGood (run_calibrate cfg r fs).1)
        = l.map missingBaselineMsg := by
    intro l
    induction l with
    | nil => rfl
    | cons p l ih =>
      have hp : (run_calibrate cfg r fs).1.baselineImages p = none := by
        rw [hcal]
        exact hempty p
      rw [List.filterMap_cons, List.map_cons, failEntry, hp, ih]
  have hrt : (run_test cfg rGood (run_calibrate cfg r fs).1).result
      = .error (regressionFailMsg (cfg.pages.map missingBaselineMsg)) := by
    rw [run_test_eq cfg rGood (run_calibrate cfg r fs).1 (by rw [hcal]) hgood]
    rw [hfail cfg.pages]
    have hnonempty : (cfg.pages.map missingBaselineMsg).isEmpty = false := by
      cases hl : cfg.pages with
      | nil => exact absurd hl hpages
      | cons p l => simp [hl]
    simp [hnonempty]
  refine ⟨⟨by rw [hcal], by rw [hcal], by rw [hcal]; rfl⟩, hrt, ?_⟩
  rw [hrt]
  intro hcontr
  exact missingDir_ne_regression cfg (cfg.pages.map missingBaselineMsg)
    (Except.error.inj hcontr).symm

/-- Witness for C10 at concrete inputs: calibration against the broken
render aborts, and the follow-up test against the sound render reports
missing baselines for pages 1 and 2 rather than a missing directory. -/
theorem C10_aborted_calibrate_leaves_directory_witness :
    ((run_calibrate cfg0 renderBad fs0).1.baselineDirExists = true
      ∧ (run_calibrate cfg0 renderBad fs0).1.baselineImages = fs0.baselineImages
      ∧ sysExitCode (run_calibrate cfg0 renderBad fs0).2 = 1)
    ∧ (run_test cfg0 renderGood (run_calibrate cfg0 renderBad fs0).1).result
        = .error (regressionFailMsg (cfg0.pages.map missingBaselineMsg))
    ∧ (run_test cfg0 renderGood (run_calibrate cfg0 renderBad fs0).1).result
        ≠ .error (missingDirMsg cfg0) :=
  C10_aborted_calibrate_leaves_directory cfg0 renderBad renderGood fs0
    (by decide) (by decide) (fun p => rfl) (by decide)
